import Mathlib

/-!
Shallow embedding of `src/plugins/database/mssql/mssql.go` (package `mssql`).

The database, the SQL driver and the SDK helpers (`connutil`, `credsutil`,
`dbtxn`, `strutil`, `multierror`, `errwrap`) are external to the file under
`src/`; their outcomes are supplied by explicit oracle records, and every
database interaction performed by the Go code is recorded as an `Event` in a
trace, in program order.  Errors built by the Go file itself (wrapping with
`fmt.Errorf`/`errwrap.Wrapf`, sentinel errors) are modelled by the `GoErr`
inductive.
-/

/-- Distinct Go `error` values that flow through `mssql.go`.
`errEmptyCreationStatement` is `dbutil.ErrEmptyCreationStatement`;
`noChangesRequested` is `fmt.Errorf("no changes requested")`;
`invalidUserPass` is `errors.New("must provide both username and password")`;
`sqlErrNoRows` is the sentinel `sql.ErrNoRows`;
`wrapped msg e` is `fmt.Errorf(msg+": %w", e)` or `errwrap.Wrapf(msg+": ...", e)`;
`base msg` is any other underlying (driver/SDK) error. -/
inductive GoErr where
  | errEmptyCreationStatement
  | noChangesRequested
  | invalidUserPass
  | sqlErrNoRows
  | base (msg : String)
  | wrapped (msg : String) (e : GoErr)
  deriving DecidableEq, Repr

/-- Equality of `Except` results is decidable (used to evaluate concrete
runs). -/
instance {ε α : Type} [DecidableEq ε] [DecidableEq α] :
    DecidableEq (Except ε α) := fun a b =>
  match a, b with
  | Except.ok x, Except.ok y =>
    if h : x = y then isTrue (by rw [h])
    else isFalse (by intro hh; cases hh; exact h rfl)
  | Except.error x, Except.error y =>
    if h : x = y then isTrue (by rw [h])
    else isFalse (by intro hh; cases hh; exact h rfl)
  | Except.ok _, Except.error _ => isFalse (by intro hh; cases hh)
  | Except.error _, Except.ok _ => isFalse (by intro hh; cases hh)

/-- One observable interaction with the shared database handle (or the lock).
`execTx`/`execDB` record the placeholder map and the raw query handed to
`dbtxn.ExecuteTxQuery`/`dbtxn.ExecuteDBQuery`; `prepare`, `execStmt`,
`queryRows`, `queryRow` record the direct `database/sql` calls made by
`revokeUserDefault` and `updateUserPass`. -/
inductive Event where
  | lock
  | unlock
  | getConnection
  | beginTx
  | execTx (params : List (String × String)) (query : String)
  | execDB (params : List (String × String)) (query : String)
  | prepare (sql : String)
  | execStmt (sql : String)
  | queryRows (sql : String)
  | queryRow (sql : String)
  | commit
  | rollback
  deriving DecidableEq, Repr

/-! ### Statement splitting and trimming (Statement Template Expander) -/

/-- Whitespace recognized by Go's `unicode.IsSpace` (ASCII and Latin-1 range;
the exotic Unicode space categories are irrelevant to SQL templates). -/
def isGoSpace (c : Char) : Bool :=
  c = ' ' || c = '\t' || c = '\n' || c = '\x0b' || c = '\x0c' || c = '\r' ||
  c = '\x85' || c = '\xa0'

/-- Split a character list on `;` (the separator `mssql.go` always passes). -/
def splitSemiAux : List Char → List Char → List (List Char)
  | [], acc => [acc.reverse]
  | c :: cs, acc =>
    if c = ';' then acc.reverse :: splitSemiAux cs []
    else splitSemiAux cs (c :: acc)

/-- Modelled from the spec: `strutil.ParseArbitraryStringSlice(stmt, ";")`
(SDK helper, not under `src/`) splits the semicolon-delimited statement
block on `;` (spec section 4.1 splitting rule). -/
def parseStatementSlice (input : String) : List String :=
  (splitSemiAux input.data []).map (fun l => ⟨l⟩)

/-- Drop trailing characters satisfying `isGoSpace`. -/
def trimRightChars (l : List Char) : List Char :=
  l.foldr (fun c acc => if acc = [] ∧ isGoSpace c then [] else c :: acc) []

/-- Model of Go's `strings.TrimSpace` (stdlib, external): drop leading and
trailing whitespace. -/
def trimSpace (s : String) : String :=
  ⟨trimRightChars (s.data.dropWhile isGoSpace)⟩

/-- The inner loop of `NewUser`/`DeleteUser`/`updateUserPass`: trim each
fragment, skip it when the trimmed text is empty, keep the trimmed text. -/
def expandLoop : List String → List String
  | [] => []
  | q :: qs =>
    let t := trimSpace q
    if t.length = 0 then expandLoop qs else t :: expandLoop qs

/-- Expansion of one statement template into the statements actually
executed: split on `;`, trim, drop empty fragments. -/
def expandOne (stmt : String) : List String :=
  expandLoop (parseStatementSlice stmt)

/-- Expansion of the whole `Statements.Commands` list (the two nested `for`
loops of the Go code, flattened). -/
def expandStatements (cmds : List String) : List String :=
  (cmds.map expandOne).flatten

/-! ### SQL text built by `mssql.go` -/

/-- A single-quote character, used by the SQL constants of `mssql.go`. -/
def sqlQuote : String := String.singleton (Char.ofNat 39)

/-- `fmt.Sprintf("ALTER LOGIN [%s] DISABLE;", username)`. -/
def disableSQL (username : String) : String :=
  "ALTER LOGIN [" ++ username ++ "] DISABLE;"

/-- The session-enumeration query prepared by `revokeUserDefault`. -/
def sessionQuerySQL : String :=
  "SELECT session_id FROM sys.dm_exec_sessions WHERE login_name = @p1;"

/-- The login-mapping enumeration query prepared by `revokeUserDefault`. -/
def mappingQuerySQL : String :=
  "EXEC master.dbo.sp_msloginmappings @p1;"

/-- `fmt.Sprintf("KILL %d;", sessionID)`. -/
def killStmt (sessionID : Int) : String :=
  "KILL " ++ toString sessionID ++ ";"

/-- `fmt.Sprintf(dropUserSQL, dbName, username, username)` for the const
`dropUserSQL` at the bottom of `mssql.go`. -/
def dropUserSQL (dbName username : String) : String :=
  "\nUSE [" ++ dbName ++ "]\nIF EXISTS\n  (SELECT name\n   FROM sys.database_principals\n   WHERE name = N"
    ++ sqlQuote ++ username ++ sqlQuote ++ ")\nBEGIN\n  DROP USER [" ++ username ++ "]\nEND\n"

/-- `fmt.Sprintf(dropLoginSQL, username, username)` for the const
`dropLoginSQL` at the bottom of `mssql.go`. -/
def dropLoginSQL (username : String) : String :=
  "\nIF EXISTS\n  (SELECT name\n   FROM master.sys.server_principals\n   WHERE name = N"
    ++ sqlQuote ++ username ++ sqlQuote ++ ")\nBEGIN\n  DROP LOGIN [" ++ username ++ "]\nEND\n"

/-- The const `alterLoginSQL` (default rotate template); `\x7b\x7b`/`\x7d\x7d`
are the literal double braces of the Go source. -/
def alterLoginSQL : String :=
  "\nALTER LOGIN [\x7b\x7busername\x7d\x7d] WITH PASSWORD = " ++ sqlQuote
    ++ "\x7b\x7bpassword\x7d\x7d" ++ sqlQuote ++ " \n"

/-- The existence-probe query of `updateUserPass`. -/
def probeSQL : String :=
  "SELECT 1 FROM master.sys.server_principals where name = N" ++ sqlQuote ++ "$1" ++ sqlQuote

/-! ### Executor loops

`dbtxn.ExecuteTxQuery` / `dbtxn.ExecuteDBQuery` (SDK, not under `src/`) are
modelled by an oracle `execErr` giving the outcome of executing a (placeholder
map, raw query) pair; the error an oracle returns is returned unchanged, as the
SDK helpers hand the driver error back to `mssql.go`. -/

/-- The `NewUser`/`updateUserPass` execution loop inside the transaction:
execute in order, stop at the first failure. -/
def execTxLoop (execErr : List (String × String) → String → Option GoErr)
    (pm : List (String × String)) : List String → List Event × Option GoErr
  | [] => ([], none)
  | q :: qs =>
    match execErr pm q with
    | some e => ([Event.execTx pm q], some e)
    | none =>
      let r := execTxLoop execErr pm qs
      (Event.execTx pm q :: r.1, r.2)

/-- The explicit-path `DeleteUser` loop: execute every statement against the
plain handle, collecting the failures in order (`multierror.Append`). -/
def execDBLoop (execErr : List (String × String) → String → Option GoErr)
    (pm : List (String × String)) : List String → List Event × List GoErr
  | [] => ([], [])
  | q :: qs =>
    let r := execDBLoop execErr pm qs
    match execErr pm q with
    | some e => (Event.execDB pm q :: r.1, e :: r.2)
    | none => (Event.execDB pm q :: r.1, r.2)

/-- The `revokeUserDefault` cleanup loop: execute every synthesized statement
with a nil placeholder map, remembering only the last failure
(`lastStmtError`). -/
def cleanupLoop (execErr : String → Option GoErr) :
    List String → List Event × Option GoErr
  | [] => ([], none)
  | q :: qs =>
    let r := cleanupLoop execErr qs
    match execErr q with
    | some e => (Event.execDB [] q :: r.1, some (r.2.getD e))
    | none => (Event.execDB [] q :: r.1, r.2)

/-! ### NewUser -/

/-- Outcomes of the external collaborators used by `NewUser`:
the connection producer, `credsutil.GenerateUsername`, `db.BeginTx`,
statement execution and `tx.Commit`. -/
structure NewUserOracle where
  connErr : Option GoErr
  genUsername : Except GoErr String
  beginErr : Option GoErr
  execErr : List (String × String) → String → Option GoErr
  commitErr : Option GoErr

/-- `newdbplugin.NewUserRequest`, restricted to the fields `mssql.go` reads.
`expiration` is the already-formatted `expirationStr` (time formatting is the
external standard library). -/
structure NewUserRequest where
  displayName : String
  roleName : String
  password : String
  expiration : String
  commands : List String

/-- The placeholder map `NewUser` builds for every statement. -/
def newUserParams (username password expiration : String) : List (String × String) :=
  [("name", username), ("password", password), ("expiration", expiration)]

/-- `NewUser` without the surrounding `m.Lock()`/`defer m.Unlock()`.
The deferred `tx.Rollback()` after a successful or failed `Commit` is a
no-op returning `ErrTxDone` without a database round trip, so only the
pre-commit early returns record a `rollback` event. -/
def newUserLocked (o : NewUserOracle) (req : NewUserRequest) :
    List Event × Except GoErr String :=
  match o.connErr with
  | some e => ([Event.getConnection],
      Except.error (GoErr.wrapped "unable to get connection" e))
  | none =>
    if req.commands.length = 0 then
      ([Event.getConnection], Except.error GoErr.errEmptyCreationStatement)
    else
      match o.genUsername with
      | Except.error e => ([Event.getConnection], Except.error e)
      | Except.ok username =>
        match o.beginErr with
        | some e => ([Event.getConnection, Event.beginTx], Except.error e)
        | none =>
          let pm := newUserParams username req.password req.expiration
          let r := execTxLoop o.execErr pm (expandStatements req.commands)
          match r.2 with
          | some e =>
              (Event.getConnection :: Event.beginTx :: r.1 ++ [Event.rollback],
               Except.error e)
          | none =>
            match o.commitErr with
            | some e =>
                (Event.getConnection :: Event.beginTx :: r.1 ++ [Event.commit],
                 Except.error e)
            | none =>
                (Event.getConnection :: Event.beginTx :: r.1 ++ [Event.commit],
                 Except.ok username)

/-- `func (m *MSSQL) NewUser`: the whole body runs under the exclusive lock. -/
def newUser (o : NewUserOracle) (req : NewUserRequest) :
    List Event × Except GoErr String :=
  let r := newUserLocked o req
  (Event.lock :: r.1 ++ [Event.unlock], r.2)

/-! ### revokeUserDefault -/

/-- Outcomes of the external calls made by `revokeUserDefault`.
`sessionRows` models `sessionRows.Next/Scan` (each row scans to a session id
or fails); `mappingRows` models the `sp_msloginmappings` rows (each row scans
to an optional database name — `none` for a NULL `dbName`, skipped — or
fails); `mappingRowsErr` is `rows.Err()` observed after the row loop. -/
structure RevokeOracle where
  connErr : Option GoErr
  disablePrepErr : Option GoErr
  disableExecErr : Option GoErr
  sessionPrepErr : Option GoErr
  sessionQueryErr : Option GoErr
  sessionRows : List (Except GoErr Int)
  mappingPrepErr : Option GoErr
  mappingQueryErr : Option GoErr
  mappingRows : List (Except GoErr (Option String))
  mappingRowsErr : Option GoErr
  cleanupExecErr : String → Option GoErr
  dropPrepErr : Option GoErr
  dropExecErr : Option GoErr

/-- The session row loop: scan each row, building `KILL n;` statements;
a scan failure aborts the whole call. -/
def scanSessions : List (Except GoErr Int) → Except GoErr (List String)
  | [] => Except.ok []
  | Except.error e :: _ => Except.error e
  | Except.ok sid :: rest => (scanSessions rest).map (fun ks => killStmt sid :: ks)

/-- The mapping row loop: scan each row, skipping NULL database names and
building a drop-user statement per mapped database; a scan failure aborts
the whole call. -/
def scanMappings (username : String) :
    List (Except GoErr (Option String)) → Except GoErr (List String)
  | [] => Except.ok []
  | Except.error e :: _ => Except.error e
  | Except.ok none :: rest => scanMappings username rest
  | Except.ok (some dbName) :: rest =>
      (scanMappings username rest).map (fun ds => dropUserSQL dbName username :: ds)

/-- `func (m *MSSQL) revokeUserDefault`, step for step: disable the login,
enumerate sessions into `KILL` statements, enumerate per-database mappings
into drop-user statements, best-effort execute the synthesized statements,
then check `rows.Err()` and `lastStmtError` before dropping the login. -/
def revokeUserDefault (o : RevokeOracle) (username : String) :
    List Event × Option GoErr :=
  let tr0 := [Event.getConnection]
  match o.connErr with
  | some e => (tr0, some e)
  | none =>
  let tr1 := tr0 ++ [Event.prepare (disableSQL username)]
  match o.disablePrepErr with
  | some e => (tr1, some e)
  | none =>
  let tr2 := tr1 ++ [Event.execStmt (disableSQL username)]
  match o.disableExecErr with
  | some e => (tr2, some e)
  | none =>
  let tr3 := tr2 ++ [Event.prepare sessionQuerySQL]
  match o.sessionPrepErr with
  | some e => (tr3, some e)
  | none =>
  let tr4 := tr3 ++ [Event.queryRows sessionQuerySQL]
  match o.sessionQueryErr with
  | some e => (tr4, some e)
  | none =>
  match scanSessions o.sessionRows with
  | Except.error e => (tr4, some e)
  | Except.ok killStmts =>
  let tr5 := tr4 ++ [Event.prepare mappingQuerySQL]
  match o.mappingPrepErr with
  | some e => (tr5, some e)
  | none =>
  let tr6 := tr5 ++ [Event.queryRows mappingQuerySQL]
  match o.mappingQueryErr with
  | some e => (tr6, some e)
  | none =>
  match scanMappings username o.mappingRows with
  | Except.error e => (tr6, some e)
  | Except.ok dropStmts =>
  let revokeStmts := killStmts ++ dropStmts
  let c := cleanupLoop o.cleanupExecErr revokeStmts
  let tr7 := tr6 ++ c.1
  match o.mappingRowsErr with
  | some e =>
      (tr7, some (GoErr.wrapped "could not generate sql statements for all rows" e))
  | none =>
  match c.2 with
  | some e => (tr7, some (GoErr.wrapped "could not perform all sql statements" e))
  | none =>
  let tr8 := tr7 ++ [Event.prepare (dropLoginSQL username)]
  match o.dropPrepErr with
  | some e => (tr8, some e)
  | none =>
  let tr9 := tr8 ++ [Event.execStmt (dropLoginSQL username)]
  match o.dropExecErr with
  | some e => (tr9, some e)
  | none => (tr9, none)

/-! ### DeleteUser -/

/-- Outcomes of the external calls used by the explicit `DeleteUser` path. -/
structure DeleteOracle where
  connErr : Option GoErr
  execErr : List (String × String) → String → Option GoErr

/-- `newdbplugin.DeleteUserRequest`, restricted to the fields read. -/
structure DeleteUserRequest where
  username : String
  commands : List String

/-- The `error` returned by `DeleteUser`: either the single error from
`revokeUserDefault` or the `multierror` from the explicit path. -/
inductive DeleteErr where
  | single (e : GoErr)
  | aggregated (errs : List GoErr)
  deriving DecidableEq, Repr

/-- `func (m *MSSQL) DeleteUser`: with no supplied statements the default
cascade runs; otherwise every expanded statement is executed against the
plain handle with the map `{name: username}`, the failures aggregated. -/
def deleteUser (o : DeleteOracle) (ro : RevokeOracle) (req : DeleteUserRequest) :
    List Event × Option DeleteErr :=
  if req.commands.length = 0 then
    let r := revokeUserDefault ro req.username
    (r.1, r.2.map DeleteErr.single)
  else
    match o.connErr with
    | some e => ([Event.getConnection],
        some (DeleteErr.single (GoErr.wrapped "unable to get connection" e)))
    | none =>
      let pm := [("name", req.username)]
      let r := execDBLoop o.execErr pm (expandStatements req.commands)
      (Event.getConnection :: r.1,
       if r.2.length = 0 then none else some (DeleteErr.aggregated r.2))

/-! ### UpdateUser -/

/-- `newdbplugin.ChangePassword`, restricted to the fields read. -/
structure ChangePassword where
  newPassword : String
  commands : List String

/-- `newdbplugin.UpdateUserRequest`, restricted to the fields read; the
expiration payload is carried opaquely since `mssql.go` never reads it. -/
structure UpdateUserRequest where
  username : String
  password : Option ChangePassword
  expiration : Option String

/-- Outcomes of the external calls used by `updateUserPass`. -/
structure UpdateOracle where
  connErr : Option GoErr
  probeErr : Option GoErr
  beginErr : Option GoErr
  execErr : List (String × String) → String → Option GoErr
  commitErr : Option GoErr

/-- The placeholder map `updateUserPass` builds for every statement. -/
def updatePassParams (username password : String) : List (String × String) :=
  [("name", username), ("username", username), ("password", password)]

/-- The transactional tail of `updateUserPass` (from `db.BeginTx` on). -/
def updateUserPassTx (o : UpdateOracle) (username password : String)
    (stmts : List String) : List Event × Option GoErr :=
  match o.beginErr with
  | some e => ([Event.beginTx], some e)
  | none =>
    let pm := updatePassParams username password
    let r := execTxLoop o.execErr pm (expandStatements stmts)
    match r.2 with
    | some e =>
        (Event.beginTx :: r.1 ++ [Event.rollback],
         some (GoErr.wrapped "failed to execute query" e))
    | none =>
      match o.commitErr with
      | some e =>
          (Event.beginTx :: r.1 ++ [Event.commit],
           some (GoErr.wrapped "failed to commit transaction" e))
      | none => (Event.beginTx :: r.1 ++ [Event.commit], none)

/-- `updateUserPass` from `m.Lock()` on: get the connection, run the
best-effort existence probe (`sql.ErrNoRows` is not fatal), then the
transactional tail. -/
def updateUserPassLocked (o : UpdateOracle) (username password : String)
    (stmts : List String) : List Event × Option GoErr :=
  match o.connErr with
  | some e => ([Event.getConnection], some e)
  | none =>
    let tr1 := [Event.getConnection, Event.queryRow probeSQL]
    match o.probeErr with
    | some e =>
      if e = GoErr.sqlErrNoRows then
        let r := updateUserPassTx o username password stmts
        (tr1 ++ r.1, r.2)
      else (tr1, some e)
    | none =>
      let r := updateUserPassTx o username password stmts
      (tr1 ++ r.1, r.2)

/-- `func (m *MSSQL) updateUserPass`: default the statement list to
`alterLoginSQL`, validate the username and password, then run the locked
section. -/
def updateUserPass (o : UpdateOracle) (username : String) (cp : ChangePassword) :
    List Event × Option GoErr :=
  let stmts := if cp.commands.length = 0 then [alterLoginSQL] else cp.commands
  let password := cp.newPassword
  if username = "" ∨ password = "" then ([], some GoErr.invalidUserPass)
  else
    let r := updateUserPassLocked o username password stmts
    (Event.lock :: r.1 ++ [Event.unlock], r.2)

/-- `func (m *MSSQL) UpdateUser`: no change requested is an error, a supplied
password goes to `updateUserPass`, an expiration alone is a no-op. -/
def updateUser (o : UpdateOracle) (req : UpdateUserRequest) :
    List Event × Option GoErr :=
  match req.password, req.expiration with
  | none, none => ([], some GoErr.noChangesRequested)
  | some cp, _ => updateUserPass o req.username cp
  | none, some _ => ([], none)

/-! ### Error sanitizing (`New` and `secretValues`) -/

/-- The fields of the embedded `connutil.SQLConnectionProducer` that
`mssql.go` reads. -/
structure MSSQL where
  Password : String

/-- `func (m *MSSQL) secretValues`: the secret-value map handed to the error
sanitizer; the password is replaced by the literal `"[password]"`. -/
def secretValues (m : MSSQL) : List (String × String) :=
  [(m.Password, "[password]")]

/-- Fuel-driven replace-all on character lists (the behaviour of Go's
`strings.Replace(s, old, new, -1)` for a non-empty pattern); the fuel is the
length of the subject, which every step consumes at least one character of. -/
def replaceFrom (pat repl : List Char) : Nat → List Char → List Char
  | _, [] => []
  | 0, l => l
  | Nat.succ fuel, c :: cs =>
    if pat ≠ [] ∧ pat.isPrefixOf (c :: cs) then
      repl ++ replaceFrom pat repl fuel (List.drop (pat.length - 1) cs)
    else c :: replaceFrom pat repl fuel cs

/-- Replace every occurrence of `pat` in `s` by `repl`. -/
def replaceAll (s pat repl : String) : String :=
  ⟨replaceFrom pat.data repl.data s.data.length s.data⟩

/-- Modelled from the spec: `newdbplugin.NewDatabaseErrorSanitizerMiddleware`
(SDK, not under `src/`) applies the secret-value map to the text of every
error returned by the wrapped database's operations before it leaves the
core. -/
def sanitizeErrorText (secrets : List (String × String)) (msg : String) : String :=
  secrets.foldl (fun s kv => replaceAll s kv.1 kv.2) msg

/-- The plugin value built by `New`: the database wrapped with the error
sanitizer seeded from `secretValues`. -/
structure SanitizedPlugin where
  db : MSSQL
  secrets : List (String × String)

/-- `func New()`: wrap the plugin with the error-sanitizer middleware. -/
def New (m : MSSQL) : SanitizedPlugin :=
  { db := m, secrets := secretValues m }

/-- The sanitized text of an error surfaced by any operation of the plugin. -/
def SanitizedPlugin.sanitize (p : SanitizedPlugin) (msg : String) : String :=
  sanitizeErrorText p.secrets msg

/-! ### Lock-event predicates (for the concurrency discipline) -/

/-- Is this event an acquisition or release of the shared exclusive lock? -/
def isLockEvent : Event → Bool
  | Event.lock => true
  | Event.unlock => true
  | _ => false

/-- No lock or unlock event occurs in the trace. -/
def noLockEvents (tr : List Event) : Bool :=
  tr.all (fun e => !isLockEvent e)

/-! ### Helper lemmas about the executor loops -/

theorem execTxLoop_all_ok (execErr : List (String × String) → String → Option GoErr)
    (pm : List (String × String)) (qs : List String)
    (h : ∀ q ∈ qs, execErr pm q = none) :
    execTxLoop execErr pm qs = (qs.map (fun q => Event.execTx pm q), none) := by
  induction qs with
  | nil => rfl
  | cons q qs ih =>
    have hq : execErr pm q = none := h q (by simp)
    have hrest : ∀ q' ∈ qs, execErr pm q' = none := fun q' hq' => h q' (by simp [hq'])
    simp [execTxLoop, hq, ih hrest]

theorem execTxLoop_first_fail (execErr : List (String × String) → String → Option GoErr)
    (pm : List (String × String)) (qs1 : List String) (q : String) (qs2 : List String)
    (err : GoErr) (h1 : ∀ q' ∈ qs1, execErr pm q' = none) (hq : execErr pm q = some err) :
    execTxLoop execErr pm (qs1 ++ q :: qs2) =
      ((qs1 ++ [q]).map (fun s => Event.execTx pm s), some err) := by
  induction qs1 with
  | nil => simp [execTxLoop, hq]
  | cons a qs1 ih =>
    have ha : execErr pm a = none := h1 a (by simp)
    have h1' : ∀ q' ∈ qs1, execErr pm q' = none := fun q' hq' => h1 q' (by simp [hq'])
    simp [execTxLoop, ha, ih h1']

theorem execTxLoop_noLock (execErr : List (String × String) → String → Option GoErr)
    (pm : List (String × String)) (qs : List String) :
    noLockEvents (execTxLoop execErr pm qs).1 = true := by
  induction qs with
  | nil => rfl
  | cons q qs ih =>
    simp only [execTxLoop]
    cases h : execErr pm q with
    | some e => rfl
    | none =>
      simp only [noLockEvents, List.all_cons] at ih ⊢
      simpa [isLockEvent] using ih

theorem execDBLoop_trace (execErr : List (String × String) → String → Option GoErr)
    (pm : List (String × String)) (qs : List String) :
    (execDBLoop execErr pm qs).1 = qs.map (fun q => Event.execDB pm q) := by
  induction qs with
  | nil => rfl
  | cons q qs ih =>
    simp only [execDBLoop]
    cases h : execErr pm q <;> simp [h, ih]

theorem execDBLoop_errs (execErr : List (String × String) → String → Option GoErr)
    (pm : List (String × String)) (qs : List String) :
    (execDBLoop execErr pm qs).2 = qs.filterMap (execErr pm) := by
  induction qs with
  | nil => rfl
  | cons q qs ih =>
    simp only [execDBLoop, List.filterMap_cons]
    cases h : execErr pm q <;> simp [h, ih]

theorem cleanupLoop_trace (execErr : String → Option GoErr) (qs : List String) :
    (cleanupLoop execErr qs).1 = qs.map (fun q => Event.execDB [] q) := by
  induction qs with
  | nil => rfl
  | cons q qs ih =>
    simp only [cleanupLoop]
    cases h : execErr q <;> simp [h, ih]

theorem cleanupLoop_none_iff (execErr : String → Option GoErr) (qs : List String) :
    (cleanupLoop execErr qs).2 = none ↔ ∀ q ∈ qs, execErr q = none := by
  induction qs with
  | nil => simp [cleanupLoop]
  | cons q qs ih =>
    simp only [cleanupLoop]
    cases h : execErr q with
    | none => simp [h, ih]
    | some e =>
      constructor
      · intro hc; simp [h] at hc
      · intro hall
        have := hall q (by simp)
        simp [h] at this

/-! ### Lock-event helper lemmas -/

theorem noLockEvents_append (a b : List Event) :
    noLockEvents (a ++ b) = (noLockEvents a && noLockEvents b) := by
  simp [noLockEvents, List.all_append]

theorem noLockEvents_map_execDB (pm : List (String × String)) (qs : List String) :
    noLockEvents (qs.map (fun q => Event.execDB pm q)) = true := by
  simp [noLockEvents, List.all_map, isLockEvent, Function.comp]

theorem ne_of_data_ne (s t : String) (h : s.data ≠ t.data) : s ≠ t :=
  fun he => h (congrArg String.data he)

/-! ### Trimming and splitting lemmas (for the Statement Template Expander) -/

theorem trimRightChars_cons (c : Char) (l : List Char) :
    trimRightChars (c :: l) =
      if trimRightChars l = [] ∧ isGoSpace c then [] else c :: trimRightChars l := rfl

theorem trimRightChars_head (c : Char) (l : List Char) :
    trimRightChars (c :: l) = [] ∨ trimRightChars (c :: l) = c :: trimRightChars l := by
  rw [trimRightChars_cons]
  split
  · exact Or.inl rfl
  · exact Or.inr rfl

theorem trimRightChars_idem (l : List Char) :
    trimRightChars (trimRightChars l) = trimRightChars l := by
  induction l with
  | nil => rfl
  | cons c l ih =>
    rw [trimRightChars_cons]
    split
    · rfl
    · next h => rw [trimRightChars_cons, ih, if_neg h]

theorem head_dropWhile_not (p : Char → Bool) :
    ∀ (l : List Char) (c : Char) (rest : List Char),
      l.dropWhile p = c :: rest → p c = false := by
  intro l
  induction l with
  | nil => intro c rest h; cases h
  | cons a l ih =>
    intro c rest h
    by_cases ha : p a
    · rw [List.dropWhile_cons, if_pos ha] at h
      exact ih c rest h
    · rw [List.dropWhile_cons, if_neg ha] at h
      cases h
      simpa using ha

theorem dropWhile_trimRight (l : List Char) :
    (trimRightChars (l.dropWhile isGoSpace)).dropWhile isGoSpace
      = trimRightChars (l.dropWhile isGoSpace) := by
  cases hx : l.dropWhile isGoSpace with
  | nil => rfl
  | cons c x =>
    have hc : isGoSpace c = false := head_dropWhile_not isGoSpace l c x hx
    rcases trimRightChars_head c x with h | h
    · rw [h]; rfl
    · rw [h, List.dropWhile_cons, if_neg (by simp [hc])]

theorem trimSpace_idem (s : String) : trimSpace (trimSpace s) = trimSpace s := by
  show (⟨trimRightChars ((trimRightChars (s.data.dropWhile isGoSpace)).dropWhile isGoSpace)⟩ : String)
      = ⟨trimRightChars (s.data.dropWhile isGoSpace)⟩
  rw [dropWhile_trimRight, trimRightChars_idem]

theorem mem_trimRightChars {c : Char} :
    ∀ l : List Char, c ∈ trimRightChars l → c ∈ l := by
  intro l
  induction l with
  | nil => intro h; simp [trimRightChars] at h
  | cons a l ih =>
    rw [trimRightChars_cons]
    split
    · intro h; simp at h
    · intro h
      rcases List.mem_cons.mp h with h | h
      · exact h ▸ List.mem_cons_self a l
      · exact List.mem_cons_of_mem a (ih h)

theorem mem_dropWhile {c : Char} (p : Char → Bool) :
    ∀ l : List Char, c ∈ l.dropWhile p → c ∈ l := by
  intro l
  induction l with
  | nil => intro h; simp at h
  | cons a l ih =>
    rw [List.dropWhile_cons]
    split
    · intro h; exact List.mem_cons_of_mem a (ih h)
    · intro h; exact h

theorem mem_trimSpace_data {c : Char} (s : String) :
    c ∈ (trimSpace s).data → c ∈ s.data := by
  intro h
  exact mem_dropWhile isGoSpace s.data (mem_trimRightChars _ h)

theorem splitSemiAux_no_semi :
    ∀ (l acc : List Char), ';' ∉ acc →
      ∀ piece ∈ splitSemiAux l acc, ';' ∉ piece := by
  intro l
  induction l with
  | nil =>
    intro acc hacc piece hp
    simp only [splitSemiAux, List.mem_singleton] at hp
    subst hp
    simpa using hacc
  | cons c cs ih =>
    intro acc hacc piece hp
    by_cases hc : c = ';'
    · rw [splitSemiAux, if_pos hc] at hp
      rcases List.mem_cons.mp hp with h | h
      · subst h; simpa using hacc
      · exact ih [] (by simp) piece h
    · rw [splitSemiAux, if_neg hc] at hp
      refine ih (c :: acc) ?_ piece hp
      intro hmem
      rcases List.mem_cons.mp hmem with h | h
      · exact hc h.symm
      · exact hacc h

theorem expandLoop_eq_filter_map (l : List String) :
    expandLoop l = ((l.map trimSpace).filter (fun q => q.length != 0)) := by
  induction l with
  | nil => rfl
  | cons q qs ih =>
    simp only [expandLoop, List.map_cons, List.filter_cons]
    by_cases h : (trimSpace q).length = 0
    · simp [h, ih]
    · simp [h, ih]

/-! ### Claim C6: statement splitting -/

/-- C6: statement splitting divides each template on `;`, trims whitespace
from each fragment and discards empty or whitespace-only fragments (so the
loop equals a split-trim-filter pipeline, every produced statement is
non-empty, trimmed and semicolon-free), and the template `";;  ;\n;"` yields
the empty statement sequence.  The expansion is a pure function, hence
deterministic for identical inputs. -/
theorem statement_splitting_spec (tpl : String) :
    expandOne tpl =
        ((parseStatementSlice tpl).map trimSpace).filter (fun q => q.length != 0) ∧
    (∀ q ∈ expandOne tpl, q ≠ "" ∧ trimSpace q = q ∧ ';' ∉ q.data) ∧
    expandOne ";;  ;\n;" = [] := by
  refine ⟨expandLoop_eq_filter_map _, ?_, by decide⟩
  intro q hq
  rw [expandOne, expandLoop_eq_filter_map] at hq
  have hmf := List.mem_filter.mp hq
  have hmem := hmf.1
  have hlen : (q.length != 0) = true := hmf.2
  rcases List.mem_map.mp hmem with ⟨frag, hfrag, rfl⟩
  refine ⟨?_, trimSpace_idem frag, ?_⟩
  · intro h0
    rw [h0] at hlen
    simp at hlen
  · intro hsemi
    rcases List.mem_map.mp hfrag with ⟨piece, hpiece, rfl⟩
    exact splitSemiAux_no_semi tpl.data [] (by simp) piece hpiece
      (mem_trimSpace_data _ hsemi)

theorem statement_splitting_spec_witness :
    "a" ∈ expandOne "a; ; b" ∧ "a" ≠ "" ∧ trimSpace "a" = "a" ∧ ';' ∉ "a".data := by
  have h := statement_splitting_spec "a; ; b"
  have hmem : "a" ∈ expandOne "a; ; b" := by decide
  exact ⟨hmem, h.2.1 "a" hmem⟩

/-! ### Claim C7: update with no change / expiration only -/

/-- C7: an update request supplying neither a new password nor a new
expiration fails with NoChangeRequestedError; one supplying only an
expiration returns success having executed zero database statements. -/
theorem updateUser_no_change_and_expiration_noop (o : UpdateOracle)
    (req : UpdateUserRequest) :
    (req.password = none → req.expiration = none →
        updateUser o req = ([], some GoErr.noChangesRequested)) ∧
    (req.password = none → ∀ x, req.expiration = some x →
        updateUser o req = ([], none)) := by
  constructor
  · intro hp he
    simp [updateUser, hp, he]
  · intro hp x he
    simp [updateUser, hp, he]

/-- A benign update oracle for concrete runs. -/
def oracleU : UpdateOracle :=
  { connErr := none, probeErr := none, beginErr := none,
    execErr := fun _ _ => none, commitErr := none }

theorem updateUser_no_change_and_expiration_noop_witness :
    updateUser oracleU ⟨"u", none, none⟩ = ([], some GoErr.noChangesRequested) ∧
    updateUser oracleU ⟨"u", none, some "2026-01-01"⟩ = ([], none) :=
  ⟨(updateUser_no_change_and_expiration_noop oracleU ⟨"u", none, none⟩).1 rfl rfl,
   (updateUser_no_change_and_expiration_noop oracleU
      ⟨"u", none, some "2026-01-01"⟩).2 rfl "2026-01-01" rfl⟩

/-! ### Claim C10: expiration silently ignored when a password is supplied -/

/-- C10: when an update supplies both a new password and a new expiration,
only the password update is performed: the call behaves identically to the
expiration-free request (the expiration value is never read), and the
placeholder map used for the statements carries exactly the keys
name/username/password — no expiration placeholder. -/
theorem updateUser_expiration_ignored (o : UpdateOracle) (u : String)
    (cp : ChangePassword) (x : String) (p : String) :
    updateUser o ⟨u, some cp, some x⟩ = updateUser o ⟨u, some cp, none⟩ ∧
    updateUser o ⟨u, some cp, some x⟩ = updateUserPass o u cp ∧
    (updatePassParams u p).map Prod.fst = ["name", "username", "password"] :=
  ⟨rfl, rfl, rfl⟩

/-! ### Claim C1: empty creation statements -/

/-- C1 (amended): with an empty creation-statement list and an obtainable
connection, NewUser returns ErrEmptyCreationStatement without opening a
transaction or executing any statement — but the connection is obtained
(used) before the empty check, as the trace shows. -/
theorem newUser_empty_statements_requires_connection (o : NewUserOracle)
    (req : NewUserRequest) (hconn : o.connErr = none)
    (hempty : req.commands = []) :
    newUser o req =
      ([Event.lock, Event.getConnection, Event.unlock],
       Except.error GoErr.errEmptyCreationStatement) := by
  simp [newUser, newUserLocked, hconn, hempty]

/-- A benign NewUser oracle for concrete runs. -/
def oracleN : NewUserOracle :=
  { connErr := none, genUsername := Except.ok "user1", beginErr := none,
    execErr := fun _ _ => none, commitErr := none }

/-- A NewUser oracle whose connection acquisition fails. -/
def oracleNConnFail : NewUserOracle :=
  { connErr := some (GoErr.base "dial tcp: connection refused"),
    genUsername := Except.ok "user1", beginErr := none,
    execErr := fun _ _ => none, commitErr := none }

theorem newUser_empty_statements_requires_connection_witness :
    newUser oracleN ⟨"app", "svc", "pw", "2026-01-02 15:04:05+0000", []⟩ =
      ([Event.lock, Event.getConnection, Event.unlock],
       Except.error GoErr.errEmptyCreationStatement) :=
  newUser_empty_statements_requires_connection oracleN _ rfl rfl

/-- C1 counterexample: an empty-statement request does perform a database
call — it first obtains the connection; when that fails the connection error,
not EmptyStatementError, is returned, and on the success path the trace
records the connection use.  So "returns EmptyStatementError and performs no
database calls: no connection use" is false as stated. -/
theorem newUser_empty_statements_conn_cex :
    (newUser oracleNConnFail ⟨"app", "svc", "pw", "2026-01-02 15:04:05+0000", []⟩).2 ≠
      Except.error GoErr.errEmptyCreationStatement ∧
    Event.getConnection ∈
      (newUser oracleN ⟨"app", "svc", "pw", "2026-01-02 15:04:05+0000", []⟩).1 := by
  decide

/-! ### Claim C2: NewUser transactional atomicity -/

/-- C2: once the transaction is open, if the first failing expanded statement
fails with error `e`, the transaction is rolled back, exactly `e` is returned
and no username is returned; if every statement and the commit succeed, the
generated username is returned. -/
theorem newUser_transaction_atomicity (o : NewUserOracle) (req : NewUserRequest)
    (u : String) (hconn : o.connErr = none) (hne : ¬req.commands.length = 0)
    (hgen : o.genUsername = Except.ok u) (hbegin : o.beginErr = none) :
    (∀ (qs1 : List String) (q : String) (qs2 : List String) (e : GoErr),
        expandStatements req.commands = qs1 ++ q :: qs2 →
        (∀ q' ∈ qs1,
          o.execErr (newUserParams u req.password req.expiration) q' = none) →
        o.execErr (newUserParams u req.password req.expiration) q = some e →
        newUser o req =
          (Event.lock :: Event.getConnection :: Event.beginTx ::
             ((qs1 ++ [q]).map
                 (fun s => Event.execTx (newUserParams u req.password req.expiration) s)
               ++ [Event.rollback, Event.unlock]),
           Except.error e)) ∧
    ((∀ q ∈ expandStatements req.commands,
        o.execErr (newUserParams u req.password req.expiration) q = none) →
      o.commitErr = none →
      newUser o req =
        (Event.lock :: Event.getConnection :: Event.beginTx ::
           ((expandStatements req.commands).map
               (fun s => Event.execTx (newUserParams u req.password req.expiration) s)
             ++ [Event.commit, Event.unlock]),
         Except.ok u)) := by
  constructor
  · intro qs1 q qs2 e hsplit hok hfail
    simp only [newUser, newUserLocked, hconn, hne, hgen, hbegin, if_neg hne, hsplit]
    rw [execTxLoop_first_fail o.execErr _ qs1 q qs2 e hok hfail]
    simp
  · intro hallok hcommit
    simp only [newUser, newUserLocked, hconn, hne, hgen, hbegin, if_neg hne]
    rw [execTxLoop_all_ok o.execErr _ _ hallok]
    simp [hcommit]

/-- A NewUser oracle whose execution fails exactly on the statement "DROP y". -/
def oracleNFailDrop : NewUserOracle :=
  { connErr := none, genUsername := Except.ok "user1", beginErr := none,
    execErr := fun _ q => if q = "DROP y" then some (GoErr.base "boom") else none,
    commitErr := none }

theorem newUser_transaction_atomicity_witness :
    newUser oracleNFailDrop
        ⟨"app", "svc", "pw", "2026-01-02 15:04:05+0000", ["CREATE x; DROP y"]⟩ =
      (Event.lock :: Event.getConnection :: Event.beginTx ::
         ((["CREATE x"] ++ ["DROP y"]).map
             (fun s => Event.execTx
               (newUserParams "user1" "pw" "2026-01-02 15:04:05+0000") s)
           ++ [Event.rollback, Event.unlock]),
       Except.error (GoErr.base "boom")) :=
  (newUser_transaction_atomicity oracleNFailDrop
      ⟨"app", "svc", "pw", "2026-01-02 15:04:05+0000", ["CREATE x; DROP y"]⟩
      "user1" rfl (by decide) rfl rfl).1
    ["CREATE x"] "DROP y" [] (GoErr.base "boom") (by decide) (by decide) (by decide)

/-! ### Claim C5: explicit DeleteUser is best-effort with aggregated errors -/

/-- C5: on the explicit delete path every non-empty expanded statement is
attempted with the single placeholder map `{name: username}` regardless of
earlier failures (the trace lists them all, in order); the call succeeds iff
no statement failed; and on failure the aggregated error carries exactly one
entry, in order, per failed statement. -/
theorem deleteUser_explicit_best_effort (o : DeleteOracle) (ro : RevokeOracle)
    (req : DeleteUserRequest) (hne : ¬req.commands.length = 0)
    (hconn : o.connErr = none) :
    (deleteUser o ro req).1 =
        Event.getConnection ::
          (expandStatements req.commands).map
            (fun q => Event.execDB [("name", req.username)] q) ∧
    ((deleteUser o ro req).2 = none ↔
      ∀ q ∈ expandStatements req.commands,
        o.execErr [("name", req.username)] q = none) ∧
    ((deleteUser o ro req).2 ≠ none →
      (deleteUser o ro req).2 =
        some (DeleteErr.aggregated
          ((expandStatements req.commands).filterMap
            (o.execErr [("name", req.username)])))) := by
  have hred : deleteUser o ro req =
      (Event.getConnection ::
         (expandStatements req.commands).map
           (fun q => Event.execDB [("name", req.username)] q),
       if ((expandStatements req.commands).filterMap
             (o.execErr [("name", req.username)])).length = 0
       then none
       else some (DeleteErr.aggregated
         ((expandStatements req.commands).filterMap
           (o.execErr [("name", req.username)])))) := by
    simp only [deleteUser, if_neg hne, hconn]
    rw [execDBLoop_trace, execDBLoop_errs]
  rw [hred]
  refine ⟨rfl, ?_, ?_⟩
  · by_cases h : ((expandStatements req.commands).filterMap
        (o.execErr [("name", req.username)])) = []
    · simp [h]
      exact List.filterMap_eq_nil_iff.mp h
    · have hlen : ¬((expandStatements req.commands).filterMap
          (o.execErr [("name", req.username)])).length = 0 := by
        simpa [List.length_eq_zero] using h
      rw [if_neg hlen]
      constructor
      · intro hc
        exact absurd hc (by simp)
      · intro hall
        exact absurd (List.filterMap_eq_nil_iff.mpr hall) h
  · by_cases h : ((expandStatements req.commands).filterMap
        (o.execErr [("name", req.username)])) = []
    · rw [if_pos (by simp [h])]
      intro hne2
      exact absurd rfl hne2
    · have hlen : ¬((expandStatements req.commands).filterMap
          (o.execErr [("name", req.username)])).length = 0 := by
        simpa [List.length_eq_zero] using h
      rw [if_neg hlen]
      intro _
      rfl

/-- A delete oracle whose execution fails exactly on the statement "S1". -/
def oracleDFailS1 : DeleteOracle :=
  { connErr := none,
    execErr := fun _ q => if q = "S1" then some (GoErr.base "e1") else none }

/-- A benign revoke oracle (empty enumerations, no failures). -/
def oracleROk : RevokeOracle :=
  { connErr := none, disablePrepErr := none, disableExecErr := none,
    sessionPrepErr := none, sessionQueryErr := none, sessionRows := [],
    mappingPrepErr := none, mappingQueryErr := none, mappingRows := [],
    mappingRowsErr := none, cleanupExecErr := fun _ => none,
    dropPrepErr := none, dropExecErr := none }

theorem deleteUser_explicit_best_effort_witness :
    (deleteUser oracleDFailS1 oracleROk ⟨"u", ["S1; S2"]⟩).1 =
      [Event.getConnection, Event.execDB [("name", "u")] "S1",
       Event.execDB [("name", "u")] "S2"] ∧
    (deleteUser oracleDFailS1 oracleROk ⟨"u", ["S1; S2"]⟩).2 =
      some (DeleteErr.aggregated [GoErr.base "e1"]) := by
  have h := deleteUser_explicit_best_effort oracleDFailS1 oracleROk ⟨"u", ["S1; S2"]⟩
    (by decide) rfl
  constructor
  · rw [h.1]
    decide
  · have h2 := h.2.2 (by decide)
    rw [h2]
    decide

/-! ### Claims C3 and C4: the default revoke cascade -/

/-- The events of the default cascade before the cleanup loop: connection,
disable-login, session enumeration, mapping enumeration. -/
def revokePreTrace (u : String) : List Event :=
  [Event.getConnection, Event.prepare (disableSQL u), Event.execStmt (disableSQL u),
   Event.prepare sessionQuerySQL, Event.queryRows sessionQuerySQL,
   Event.prepare mappingQuerySQL, Event.queryRows mappingQuerySQL]

/-- When the planning phases all succeed, `revokeUserDefault` reduces to the
cleanup loop over kills ++ drops followed by the rows.Err / lastStmtError /
drop-login checks. -/
theorem revokeUserDefault_reduce (o : RevokeOracle) (u : String)
    (kills drops : List String)
    (hconn : o.connErr = none) (hdp : o.disablePrepErr = none)
    (hde : o.disableExecErr = none) (hsp : o.sessionPrepErr = none)
    (hsq : o.sessionQueryErr = none)
    (hks : scanSessions o.sessionRows = Except.ok kills)
    (hmp : o.mappingPrepErr = none) (hmq : o.mappingQueryErr = none)
    (hdr : scanMappings u o.mappingRows = Except.ok drops) :
    revokeUserDefault o u =
      (match o.mappingRowsErr with
       | some e =>
           (revokePreTrace u ++ (cleanupLoop o.cleanupExecErr (kills ++ drops)).1,
            some (GoErr.wrapped "could not generate sql statements for all rows" e))
       | none =>
         match (cleanupLoop o.cleanupExecErr (kills ++ drops)).2 with
         | some e =>
             (revokePreTrace u ++ (cleanupLoop o.cleanupExecErr (kills ++ drops)).1,
              some (GoErr.wrapped "could not perform all sql statements" e))
         | none =>
           match o.dropPrepErr with
           | some e =>
               (revokePreTrace u ++ (cleanupLoop o.cleanupExecErr (kills ++ drops)).1
                  ++ [Event.prepare (dropLoginSQL u)], some e)
           | none =>
             match o.dropExecErr with
             | some e =>
                 (revokePreTrace u ++ (cleanupLoop o.cleanupExecErr (kills ++ drops)).1
                    ++ [Event.prepare (dropLoginSQL u), Event.execStmt (dropLoginSQL u)],
                  some e)
             | none =>
                 (revokePreTrace u ++ (cleanupLoop o.cleanupExecErr (kills ++ drops)).1
                    ++ [Event.prepare (dropLoginSQL u), Event.execStmt (dropLoginSQL u)],
                  none)) := by
  simp only [revokeUserDefault, hconn, hdp, hde, hsp, hsq, hks, hmp, hmq, hdr,
    revokePreTrace]
  cases o.mappingRowsErr with
  | some e => simp
  | none =>
    cases hc : (cleanupLoop o.cleanupExecErr (kills ++ drops)).2 with
    | some e => simp
    | none =>
      cases o.dropPrepErr with
      | some e => simp
      | none =>
        cases o.dropExecErr with
        | some e => simp
        | none => simp

/-- The first characters of the generated SQL texts distinguish the
disable-login statement from the drop-login statement, for every username. -/
theorem dropLoginSQL_ne_disableSQL (u : String) : dropLoginSQL u ≠ disableSQL u := by
  intro h
  have hd := congrArg (fun s => s.data.head?) h
  simp [dropLoginSQL, disableSQL, String.data_append] at hd

/-- The drop-login execution event never occurs among the planning-phase
events or the cleanup-loop executions. -/
theorem dropLogin_not_mem (u : String) (stmts : List String) :
    Event.execStmt (dropLoginSQL u) ∉
      revokePreTrace u ++ stmts.map (fun q => Event.execDB [] q) := by
  intro h
  rcases List.mem_append.mp h with h | h
  · simp only [revokePreTrace, List.mem_cons, List.mem_singleton] at h
    rcases h with h | h | h | h | h | h | h | h
    all_goals first
      | exact Event.noConfusion h
      | (injection h with h2; exact dropLoginSQL_ne_disableSQL u h2)
      | simp at h
  · rcases List.mem_map.mp h with ⟨q, _, hq⟩
    exact Event.noConfusion hq

/-- C3: in the default revoke cascade (all planning phases succeeding), every
kill-session execution precedes every drop-user execution (the cleanup block
is `kills.map … ++ drops.map …`); the drop-login statement is executed only
when the row enumeration reported no error and zero cleanup statements
failed; and the two failure kinds surface as distinguishable wrapped
errors. -/
theorem revokeUserDefault_cascade_order (o : RevokeOracle) (u : String)
    (kills drops : List String)
    (hconn : o.connErr = none) (hdp : o.disablePrepErr = none)
    (hde : o.disableExecErr = none) (hsp : o.sessionPrepErr = none)
    (hsq : o.sessionQueryErr = none)
    (hks : scanSessions o.sessionRows = Except.ok kills)
    (hmp : o.mappingPrepErr = none) (hmq : o.mappingQueryErr = none)
    (hdr : scanMappings u o.mappingRows = Except.ok drops) :
    (∃ post, (revokeUserDefault o u).1 =
        revokePreTrace u ++ kills.map (fun q => Event.execDB [] q)
          ++ drops.map (fun q => Event.execDB [] q) ++ post) ∧
    (Event.execStmt (dropLoginSQL u) ∈ (revokeUserDefault o u).1 →
        o.mappingRowsErr = none ∧ ∀ q ∈ kills ++ drops, o.cleanupExecErr q = none) ∧
    (∀ e, o.mappingRowsErr = some e →
        (revokeUserDefault o u).2 =
          some (GoErr.wrapped "could not generate sql statements for all rows" e)) ∧
    (o.mappingRowsErr = none →
      ∀ e, (cleanupLoop o.cleanupExecErr (kills ++ drops)).2 = some e →
        (revokeUserDefault o u).2 =
          some (GoErr.wrapped "could not perform all sql statements" e)) := by
  rw [revokeUserDefault_reduce o u kills drops hconn hdp hde hsp hsq hks hmp hmq hdr]
  have htr : (cleanupLoop o.cleanupExecErr (kills ++ drops)).1
      = kills.map (fun q => Event.execDB [] q)
          ++ drops.map (fun q => Event.execDB [] q) := by
    rw [cleanupLoop_trace, List.map_append]
  have htr2 : (cleanupLoop o.cleanupExecErr (kills ++ drops)).1
      = (kills ++ drops).map (fun q => Event.execDB [] q) :=
    cleanupLoop_trace o.cleanupExecErr (kills ++ drops)
  cases hre : o.mappingRowsErr with
  | some e =>
    refine ⟨⟨[], by rw [htr]; simp⟩, ?_, ?_, ?_⟩
    · intro hmem
      rw [htr2] at hmem
      exact absurd hmem (dropLogin_not_mem u (kills ++ drops))
    · intro e2 h2
      injection h2 with h3
      rw [h3]
    · intro h2
      exact absurd h2 (by simp)
  | none =>
    cases hcl : (cleanupLoop o.cleanupExecErr (kills ++ drops)).2 with
    | some e =>
      refine ⟨⟨[], by rw [htr]; simp⟩, ?_, ?_, ?_⟩
      · intro hmem
        rw [htr2] at hmem
        exact absurd hmem (dropLogin_not_mem u (kills ++ drops))
      · intro e2 h2
        exact absurd h2 (by simp)
      · intro _ e2 h2
        injection h2 with h3
        subst h3
        rfl
    | none =>
      have hclean : ∀ q ∈ kills ++ drops, o.cleanupExecErr q = none :=
        (cleanupLoop_none_iff o.cleanupExecErr (kills ++ drops)).mp hcl
      cases o.dropPrepErr with
      | some e =>
        refine ⟨⟨[Event.prepare (dropLoginSQL u)], by rw [htr]; simp⟩, ?_, ?_, ?_⟩
        · intro _
          exact ⟨rfl, hclean⟩
        · intro e2 h2
          exact absurd h2 (by simp)
        · intro _ e2 h2
          exact absurd h2 (by simp)
      | none =>
        cases o.dropExecErr with
        | some e =>
          refine ⟨⟨[Event.prepare (dropLoginSQL u), Event.execStmt (dropLoginSQL u)],
              by rw [htr]; simp⟩, ?_, ?_, ?_⟩
          · intro _
            exact ⟨rfl, hclean⟩
          · intro e2 h2
            exact absurd h2 (by simp)
          · intro _ e2 h2
            exact absurd h2 (by simp)
        | none =>
          refine ⟨⟨[Event.prepare (dropLoginSQL u), Event.execStmt (dropLoginSQL u)],
              by rw [htr]; simp⟩, ?_, ?_, ?_⟩
          · intro _
            exact ⟨rfl, hclean⟩
          · intro e2 h2
            exact absurd h2 (by simp)
          · intro _ e2 h2
            exact absurd h2 (by simp)

/-- A revoke oracle with one session and one mapped database whose kill
statement fails during the cleanup loop. -/
def oracleRKillFail : RevokeOracle :=
  { connErr := none, disablePrepErr := none, disableExecErr := none,
    sessionPrepErr := none, sessionQueryErr := none,
    sessionRows := [Except.ok 5],
    mappingPrepErr := none, mappingQueryErr := none,
    mappingRows := [Except.ok (some "db1")], mappingRowsErr := none,
    cleanupExecErr := fun q =>
      if q = killStmt 5 then some (GoErr.base "kill failed") else none,
    dropPrepErr := none, dropExecErr := none }

theorem revokeUserDefault_cascade_order_witness :
    (∃ post, (revokeUserDefault oracleRKillFail "u").1 =
        revokePreTrace "u" ++ [killStmt 5].map (fun q => Event.execDB [] q)
          ++ [dropUserSQL "db1" "u"].map (fun q => Event.execDB [] q) ++ post) ∧
    (revokeUserDefault oracleRKillFail "u").2 =
      some (GoErr.wrapped "could not perform all sql statements"
        (GoErr.base "kill failed")) := by
  have h := revokeUserDefault_cascade_order oracleRKillFail "u"
    [killStmt 5] [dropUserSQL "db1" "u"] rfl rfl rfl rfl rfl (by decide)
    rfl rfl (by decide)
  exact ⟨h.1, h.2.2.2 rfl (GoErr.base "kill failed") (by decide)⟩

/-- C4 (amended): an enumeration failure surfaced through `rows.Err()` after
the mapping row loop is reported as a wrapped error yet does not prevent the
already-synthesized kill-session and drop-user statements from being
attempted: they are all executed before the call returns.  (A failure of the
enumeration query itself, or of scanning a row, instead aborts before any
synthesized statement runs — see the counterexample.) -/
theorem revokeUserDefault_rows_err_best_effort (o : RevokeOracle) (u : String)
    (kills drops : List String) (e : GoErr)
    (hconn : o.connErr = none) (hdp : o.disablePrepErr = none)
    (hde : o.disableExecErr = none) (hsp : o.sessionPrepErr = none)
    (hsq : o.sessionQueryErr = none)
    (hks : scanSessions o.sessionRows = Except.ok kills)
    (hmp : o.mappingPrepErr = none) (hmq : o.mappingQueryErr = none)
    (hdr : scanMappings u o.mappingRows = Except.ok drops)
    (hre : o.mappingRowsErr = some e) :
    revokeUserDefault o u =
      (revokePreTrace u ++ (kills ++ drops).map (fun q => Event.execDB [] q),
       some (GoErr.wrapped "could not generate sql statements for all rows" e)) := by
  rw [revokeUserDefault_reduce o u kills drops hconn hdp hde hsp hsq hks hmp hmq hdr,
    hre, cleanupLoop_trace]

/-- A revoke oracle with one session and one mapped database whose row
iteration ends with a rows.Err() failure. -/
def oracleRRowsErr : RevokeOracle :=
  { connErr := none, disablePrepErr := none, disableExecErr := none,
    sessionPrepErr := none, sessionQueryErr := none,
    sessionRows := [Except.ok 3],
    mappingPrepErr := none, mappingQueryErr := none,
    mappingRows := [Except.ok (some "db1")],
    mappingRowsErr := some (GoErr.base "row error"),
    cleanupExecErr := fun _ => none,
    dropPrepErr := none, dropExecErr := none }

theorem revokeUserDefault_rows_err_best_effort_witness :
    revokeUserDefault oracleRRowsErr "u" =
      (revokePreTrace "u"
         ++ ([killStmt 3] ++ [dropUserSQL "db1" "u"]).map
              (fun q => Event.execDB [] q),
       some (GoErr.wrapped "could not generate sql statements for all rows"
         (GoErr.base "row error"))) :=
  revokeUserDefault_rows_err_best_effort oracleRRowsErr "u"
    [killStmt 3] [dropUserSQL "db1" "u"] (GoErr.base "row error")
    rfl rfl rfl rfl rfl (by decide) rfl rfl (by decide) rfl

/-- Is this event an execution of a synthesized cleanup statement (a
`dbtxn.ExecuteDBQuery` call)? -/
def isCleanupExec : Event → Bool
  | Event.execDB _ _ => true
  | _ => false

/-- A revoke oracle with one pending kill statement whose mapping-enumeration
query fails. -/
def oracleREnumFail : RevokeOracle :=
  { connErr := none, disablePrepErr := none, disableExecErr := none,
    sessionPrepErr := none, sessionQueryErr := none,
    sessionRows := [Except.ok 7],
    mappingPrepErr := none, mappingQueryErr := some (GoErr.base "enum failed"),
    mappingRows := [], mappingRowsErr := none,
    cleanupExecErr := fun _ => none,
    dropPrepErr := none, dropExecErr := none }

/-- C4 counterexample: with a kill-session statement already synthesized, a
failure of the per-database mapping enumeration query returns immediately —
the kill statement is never attempted (no cleanup execution occurs in the
trace), contradicting the claim that enumeration failure does not prevent
the already-synthesized statements from being attempted. -/
theorem revokeUserDefault_enum_query_failure_cex :
    scanSessions oracleREnumFail.sessionRows = Except.ok [killStmt 7] ∧
    (revokeUserDefault oracleREnumFail "u").2 = some (GoErr.base "enum failed") ∧
    ((revokeUserDefault oracleREnumFail "u").1.all
        (fun ev => !isCleanupExec ev)) = true := by
  decide

/-! ### Claim C8: password redaction in surfaced errors -/

/-- A concrete plugin instance whose admin password is "P@ss1". -/
def mssqlPass1 : MSSQL := { Password := "P@ss1" }

/-- C8 counterexample: the secret-value map installed by `New` maps the
password to the literal `"[password]"`, not `"[redacted]"`; the sanitized
text of an error that contained the password therefore reads `"[password]"`,
so the claimed map `{password -> "[redacted]"}` is not the one applied. -/
theorem secretValues_redaction_token_cex :
    secretValues mssqlPass1 = [("P@ss1", "[password]")] ∧
    (New mssqlPass1).sanitize "login failed for P@ss1" =
      "login failed for [password]" ∧
    (New mssqlPass1).sanitize "login failed for P@ss1" ≠
      "login failed for [redacted]" := by
  decide

/-- C8 (amended): every error surfaced by the constructed plugin has the
password pre-redacted by applying the secret-value map
`{password -> "[password]"}`: the sanitizer replaces each occurrence of the
password in the error text with the literal `"[password]"` (the redaction
token is `"[password]"`, not `"[redacted]"`). -/
theorem sanitized_errors_redact_password (m : MSSQL) (msg : String) :
    (New m).sanitize msg = replaceAll msg m.Password "[password]" ∧
    secretValues m = [(m.Password, "[password]")] :=
  ⟨rfl, rfl⟩

/-! ### Claim C9: lock discipline -/

theorem noLockEvents_nil : noLockEvents [] = true := rfl

theorem noLockEvents_cons (e : Event) (tr : List Event) :
    noLockEvents (e :: tr) = (!isLockEvent e && noLockEvents tr) := by
  simp [noLockEvents, List.all_cons]

theorem cleanupLoop_noLock (execErr : String → Option GoErr) (qs : List String) :
    noLockEvents (cleanupLoop execErr qs).1 = true := by
  rw [cleanupLoop_trace]
  exact noLockEvents_map_execDB [] qs

theorem execDBLoop_noLock (execErr : List (String × String) → String → Option GoErr)
    (pm : List (String × String)) (qs : List String) :
    noLockEvents (execDBLoop execErr pm qs).1 = true := by
  rw [execDBLoop_trace]
  exact noLockEvents_map_execDB pm qs

theorem newUserLocked_noLock (o : NewUserOracle) (req : NewUserRequest) :
    noLockEvents (newUserLocked o req).1 = true := by
  unfold newUserLocked
  cases o.connErr with
  | some e => rfl
  | none =>
    by_cases hne : req.commands.length = 0
    · simp [hne, noLockEvents_cons, noLockEvents_nil, isLockEvent]
    · rw [if_neg hne]
      cases o.genUsername with
      | error e => rfl
      | ok username =>
        cases o.beginErr with
        | some e => rfl
        | none =>
          cases hr : (execTxLoop o.execErr
              (newUserParams username req.password req.expiration)
              (expandStatements req.commands)).2 with
          | some e =>
            simp [hr, noLockEvents_cons, noLockEvents_append, noLockEvents_nil,
              isLockEvent, execTxLoop_noLock]
          | none =>
            cases o.commitErr with
            | some e =>
              simp [hr, noLockEvents_cons, noLockEvents_append, noLockEvents_nil,
                isLockEvent, execTxLoop_noLock]
            | none =>
              simp [hr, noLockEvents_cons, noLockEvents_append, noLockEvents_nil,
                isLockEvent, execTxLoop_noLock]

theorem revokeUserDefault_noLock (o : RevokeOracle) (u : String) :
    noLockEvents (revokeUserDefault o u).1 = true := by
  unfold revokeUserDefault
  cases o.connErr with
  | some e => rfl
  | none =>
    cases o.disablePrepErr with
    | some e => rfl
    | none =>
      cases o.disableExecErr with
      | some e => rfl
      | none =>
        cases o.sessionPrepErr with
        | some e => rfl
        | none =>
          cases o.sessionQueryErr with
          | some e => rfl
          | none =>
            cases hks : scanSessions o.sessionRows with
            | error e => rfl
            | ok kills =>
              cases o.mappingPrepErr with
              | some e => rfl
              | none =>
                cases o.mappingQueryErr with
                | some e => rfl
                | none =>
                  cases hdr : scanMappings u o.mappingRows with
                  | error e => rfl
                  | ok drops =>
                    cases o.mappingRowsErr with
                    | some e =>
                      simp [noLockEvents_cons, noLockEvents_append,
                        noLockEvents_nil, isLockEvent, cleanupLoop_noLock]
                    | none =>
                      cases hcl : (cleanupLoop o.cleanupExecErr (kills ++ drops)).2 with
                      | some e =>
                        simp [hcl, noLockEvents_cons, noLockEvents_append,
                          noLockEvents_nil, isLockEvent, cleanupLoop_noLock]
                      | none =>
                        cases o.dropPrepErr with
                        | some e =>
                          simp [hcl, noLockEvents_cons, noLockEvents_append,
                            noLockEvents_nil, isLockEvent, cleanupLoop_noLock]
                        | none =>
                          cases o.dropExecErr with
                          | some e =>
                            simp [hcl, noLockEvents_cons, noLockEvents_append,
                              noLockEvents_nil, isLockEvent, cleanupLoop_noLock]
                          | none =>
                            simp [hcl, noLockEvents_cons, noLockEvents_append,
                              noLockEvents_nil, isLockEvent, cleanupLoop_noLock]

theorem updateUserPassTx_noLock (o : UpdateOracle) (username password : String)
    (stmts : List String) :
    noLockEvents (updateUserPassTx o username password stmts).1 = true := by
  unfold updateUserPassTx
  cases o.beginErr with
  | some e => rfl
  | none =>
    cases hr : (execTxLoop o.execErr (updatePassParams username password)
        (expandStatements stmts)).2 with
    | some e =>
      simp [hr, noLockEvents_cons, noLockEvents_append, noLockEvents_nil,
        isLockEvent, execTxLoop_noLock]
    | none =>
      cases o.commitErr with
      | some e =>
        simp [hr, noLockEvents_cons, noLockEvents_append, noLockEvents_nil,
          isLockEvent, execTxLoop_noLock]
      | none =>
        simp [hr, noLockEvents_cons, noLockEvents_append, noLockEvents_nil,
          isLockEvent, execTxLoop_noLock]

theorem updateUserPassLocked_noLock (o : UpdateOracle) (username password : String)
    (stmts : List String) :
    noLockEvents (updateUserPassLocked o username password stmts).1 = true := by
  unfold updateUserPassLocked
  repeat' split
  all_goals simp [noLockEvents_cons, noLockEvents_append, noLockEvents_nil,
    isLockEvent, updateUserPassTx_noLock]

theorem deleteUser_noLock (o : DeleteOracle) (ro : RevokeOracle)
    (req : DeleteUserRequest) :
    noLockEvents (deleteUser o ro req).1 = true := by
  unfold deleteUser
  repeat' split
  all_goals simp [noLockEvents_cons, noLockEvents_append, noLockEvents_nil,
    isLockEvent, execDBLoop_noLock, revokeUserDefault_noLock]

/-- C9: Create and password-rotate hold the shared exclusive lock around the
whole sequence from obtaining the connection through opening the transaction,
executing the statements and committing — their traces are a single
lock/unlock bracket with every database event inside and no lock event in
between (so two concurrent such calls cannot interleave statements on the
shared handle) — while Delete/Revoke performs no lock operation at all. -/
theorem lock_discipline (onu : NewUserOracle) (nreq : NewUserRequest)
    (ou : UpdateOracle) (u : String) (cp : ChangePassword)
    (od : DeleteOracle) (oro : RevokeOracle) (dreq : DeleteUserRequest) :
    (∃ body, (newUser onu nreq).1 = Event.lock :: body ++ [Event.unlock] ∧
        noLockEvents body = true) ∧
    ((updateUserPass ou u cp).1 = [] ∨
      ∃ body, (updateUserPass ou u cp).1 = Event.lock :: body ++ [Event.unlock] ∧
        noLockEvents body = true) ∧
    noLockEvents (deleteUser od oro dreq).1 = true := by
  refine ⟨⟨(newUserLocked onu nreq).1, rfl, newUserLocked_noLock onu nreq⟩, ?_,
    deleteUser_noLock od oro dreq⟩
  unfold updateUserPass
  dsimp only
  split
  · exact Or.inl rfl
  · exact Or.inr ⟨_, rfl, updateUserPassLocked_noLock ou u cp.newPassword _⟩
